import Mathlib

/-!
Verification of the OOP tutorial repository (`oo_learn`).

The Python classes are shallowly embedded as Lean structures and pure
functions.  Python `float` amounts are modelled as `ℚ`, Python `int` as
`ℤ`; printing is modelled by returning the message (or an error value)
alongside the new state; `datetime.now()` is modelled by passing the
timestamp in as an argument.
-/

namespace OoLearn

/-! ## `01_encapsulation.py` : `BankAccount` (value semantics) -/

/-- One entry of `__transaction_history`: the dict
`{"type": ..., "amount": ..., "timestamp": ...}` appended by
`__record_transaction`.  The source field `type` is a reserved word in
Lean, hence `txType`. -/
structure Transaction where
  txType : String
  amount : ℚ
  timestamp : Nat
deriving DecidableEq, Repr

/-- Error cases reported (printed) by `BankAccount.withdraw`. -/
inductive WithdrawError where
  /-- `エラー: 出金額は正の数である必要があります` (amount not positive). -/
  | invalidAmount : WithdrawError
  /-- `エラー: 残高不足です` (amount exceeds the balance). -/
  | insufficientFunds : WithdrawError
deriving DecidableEq, Repr

/-- The private state of `BankAccount`: `_owner`, `__balance`,
`__transaction_history`. -/
structure BankAccount where
  owner : String
  balance : ℚ
  transaction_history : List Transaction
deriving DecidableEq, Repr

namespace BankAccount

/-- `BankAccount.__init__(owner, initial_balance)`. -/
def init (owner : String) (initial_balance : ℚ) : BankAccount :=
  ⟨owner, initial_balance, []⟩

/-- `BankAccount.__record_transaction(transaction_type, amount)`;
`datetime.now().isoformat()` is passed in as `now`. -/
def record_transaction (acct : BankAccount) (transaction_type : String)
    (amount : ℚ) (now : Nat) : BankAccount :=
  ⟨acct.owner, acct.balance,
    acct.transaction_history ++ [⟨transaction_type, amount, now⟩]⟩

/-- `BankAccount.deposit(amount)`: returns the updated account and the
boolean result (`False` on the validation error, `True` on success). -/
def deposit (acct : BankAccount) (amount : ℚ) (now : Nat) :
    BankAccount × Bool :=
  if amount ≤ 0 then
    (acct, false)
  else
    let acct1 : BankAccount :=
      ⟨acct.owner, acct.balance + amount, acct.transaction_history⟩
    (acct1.record_transaction "deposit" amount now, true)

/-- `BankAccount.withdraw(amount)`: returns the updated account, the
boolean result and the error that was reported (if any). -/
def withdraw (acct : BankAccount) (amount : ℚ) (now : Nat) :
    BankAccount × Bool × Option WithdrawError :=
  if amount ≤ 0 then
    (acct, false, some .invalidAmount)
  else if amount > acct.balance then
    (acct, false, some .insufficientFunds)
  else
    let acct1 : BankAccount :=
      ⟨acct.owner, acct.balance - amount, acct.transaction_history⟩
    (acct1.record_transaction "withdraw" amount now, true, none)

/-- `BankAccount.get_statement()`: in the value model this is the history
itself (the defensive-copy aspect is analysed in the heap model below). -/
def get_statement (acct : BankAccount) : List Transaction :=
  acct.transaction_history

end BankAccount

/-- One call of the demo API: `deposit(amount)` or `withdraw(amount)`,
tagged with the timestamp the call happens at. -/
inductive Op where
  | deposit (amount : ℚ) (now : Nat) : Op
  | withdraw (amount : ℚ) (now : Nat) : Op
deriving DecidableEq, Repr

/-- Execute one call, keeping only the account state. -/
def applyOp (acct : BankAccount) : Op → BankAccount
  | .deposit a t => (acct.deposit a t).1
  | .withdraw a t => (acct.withdraw a t).1

/-- Execute a sequence of calls from left to right. -/
def runOps (acct : BankAccount) : List Op → BankAccount
  | [] => acct
  | op :: ops => runOps (applyOp acct op) ops

/-- Whether one call succeeds (returns `True`) in the given state. -/
def opSuccess (acct : BankAccount) : Op → Bool
  | .deposit a t => (acct.deposit a t).2
  | .withdraw a t => (acct.withdraw a t).2.1

/-- The records a single call appends: the one record of a successful
call, nothing for a failed call. -/
def opRecords (acct : BankAccount) : Op → List Transaction
  | .deposit a t =>
      if (acct.deposit a t).2 then [⟨"deposit", a, t⟩] else []
  | .withdraw a t =>
      if (acct.withdraw a t).2.1 then [⟨"withdraw", a, t⟩] else []

/-- The records of the successful calls of a sequence, in call order. -/
def successRecords (acct : BankAccount) : List Op → List Transaction
  | [] => []
  | op :: ops => opRecords acct op ++ successRecords (applyOp acct op) ops

/-- The number of successful calls of a sequence. -/
def successCount (acct : BankAccount) : List Op → Nat
  | [] => 0
  | op :: ops =>
      (if opSuccess acct op then 1 else 0) + successCount (applyOp acct op) ops

/-! ## `01_encapsulation.py` : heap model of `get_statement`

Python lists and dicts are heap objects; `list.copy()` is a shallow copy.
To reason about the defensive copy made by `get_statement` we re-embed
`BankAccount` with explicit references: a heap stores the transaction
dicts and the list objects (lists of dict addresses), the account holds
the address of its `__transaction_history` list. -/

/-- The Python heap: `dicts` holds the transaction-record dict objects
(a dict address is an index into it), `lists` holds the list objects,
whose elements are dict addresses. -/
structure PyHeap where
  dicts : List Transaction
  lists : List (List Nat)
deriving DecidableEq, Repr

/-- `BankAccount` with its `__transaction_history` held by reference. -/
structure BankAccountH where
  owner : String
  balance : ℚ
  historyRef : Nat
deriving DecidableEq, Repr

/-- A placeholder record for dangling dict addresses (never hit in the
theorems below). -/
def nullTransaction : Transaction := ⟨"", 0, 0⟩

/-- Dereference a list address: the sequence of transaction records a
caller sees when reading that list object. -/
def readList (h : PyHeap) (addr : Nat) : List Transaction :=
  (h.lists.getD addr []).map fun d => h.dicts.getD d nullTransaction

/-- `BankAccount.__init__` in the heap model: allocates the empty
`__transaction_history` list. -/
def initH (h : PyHeap) (owner : String) (initial_balance : ℚ) :
    PyHeap × BankAccountH :=
  (⟨h.dicts, h.lists ++ [[]]⟩, ⟨owner, initial_balance, h.lists.length⟩)

/-- `BankAccount.__record_transaction` in the heap model: allocates the
record dict and appends its address to the internal history list. -/
def recordTransactionH (h : PyHeap) (acct : BankAccountH)
    (transaction_type : String) (amount : ℚ) (now : Nat) : PyHeap :=
  ⟨h.dicts ++ [⟨transaction_type, amount, now⟩],
    h.lists.set acct.historyRef
      (h.lists.getD acct.historyRef [] ++ [h.dicts.length])⟩

/-- `BankAccount.deposit` in the heap model. -/
def depositH (h : PyHeap) (acct : BankAccountH) (amount : ℚ) (now : Nat) :
    PyHeap × BankAccountH × Bool :=
  if amount ≤ 0 then
    (h, acct, false)
  else
    let acct1 : BankAccountH :=
      ⟨acct.owner, acct.balance + amount, acct.historyRef⟩
    (recordTransactionH h acct1 "deposit" amount now, acct1, true)

/-- `BankAccount.get_statement` in the heap model:
`self.__transaction_history.copy()` allocates a NEW list object holding
the SAME dict addresses, and returns its address. -/
def getStatementH (h : PyHeap) (acct : BankAccountH) : PyHeap × Nat :=
  (⟨h.dicts, h.lists ++ [h.lists.getD acct.historyRef []]⟩, h.lists.length)

/-- A caller mutating the list object at `addr` (element assignment,
`append`, `clear`, slicing — any in-place rewrite of its contents). -/
def listAssign (h : PyHeap) (addr : Nat) (v : List Nat) : PyHeap :=
  ⟨h.dicts, h.lists.set addr v⟩

/-- A caller mutating the dict object at `addr` (e.g.
`record["type"] = ...` on a record taken from the statement). -/
def dictAssign (h : PyHeap) (addr : Nat) (t : Transaction) : PyHeap :=
  ⟨h.dicts.set addr t, h.lists⟩

/-! ## `04_abstraction.py` : `Database`, its backends, `find_by_id` -/

/-- A Python value stored in a result dict. -/
inductive PyValue where
  | int (n : Int) : PyValue
  | str (s : String) : PyValue
deriving DecidableEq, Repr

/-- A result row: a Python dict, as an association list. -/
abbrev PyDict := List (String × PyValue)

/-- The dummy row `{"id": 1, "name": "サンプル"}` both backends return. -/
def sampleRow : PyDict := [("id", .int 1), ("name", .str "サンプル")]

/-- The `RuntimeError` message of `execute` on a disconnected backend. -/
def notConnectedMsg : String := "データベースに接続されていません"

/-- `MySQLDatabase` state. -/
structure MySQLDatabase where
  host : String
  user : String
  password : String
  database : String
  _connected : Bool
deriving DecidableEq, Repr

namespace MySQLDatabase

/-- `MySQLDatabase.__init__`. -/
def init (host user password database : String) : MySQLDatabase :=
  ⟨host, user, password, database, false⟩

/-- `MySQLDatabase.connect`. -/
def connect (db : MySQLDatabase) : MySQLDatabase :=
  ⟨db.host, db.user, db.password, db.database, true⟩

/-- `MySQLDatabase.disconnect`. -/
def disconnect (db : MySQLDatabase) : MySQLDatabase :=
  ⟨db.host, db.user, db.password, db.database, false⟩

/-- `MySQLDatabase.execute`: raises `RuntimeError` (modelled as
`Except.error`) when not connected, else returns the dummy row. -/
def execute (db : MySQLDatabase) (_query : String) :
    Except String (List PyDict) :=
  if !db._connected then .error notConnectedMsg
  else .ok [sampleRow]

end MySQLDatabase

/-- `SQLiteDatabase` state. -/
structure SQLiteDatabase where
  filepath : String
  _connected : Bool
deriving DecidableEq, Repr

namespace SQLiteDatabase

/-- `SQLiteDatabase.__init__`. -/
def init (filepath : String) : SQLiteDatabase :=
  ⟨filepath, false⟩

/-- `SQLiteDatabase.connect`. -/
def connect (db : SQLiteDatabase) : SQLiteDatabase :=
  ⟨db.filepath, true⟩

/-- `SQLiteDatabase.disconnect`. -/
def disconnect (db : SQLiteDatabase) : SQLiteDatabase :=
  ⟨db.filepath, false⟩

/-- `SQLiteDatabase.execute`. -/
def execute (db : SQLiteDatabase) (_query : String) :
    Except String (List PyDict) :=
  if !db._connected then .error notConnectedMsg
  else .ok [sampleRow]

end SQLiteDatabase

/-- The query string built by `Database.find_by_id`. -/
def findByIdQuery (table : String) (id : Int) : String :=
  "SELECT * FROM " ++ table ++ " WHERE id = " ++ toString id

/-- `Database.find_by_id(table, id)`: the single shared implementation on
the abstract class, parameterised by the backend's `execute` method (the
only abstract method it calls).  `results[0] if results else None`; an
exception raised by `execute` propagates. -/
def find_by_id (execute : String → Except String (List PyDict))
    (table : String) (id : Int) : Except String (Option PyDict) :=
  match execute (findByIdQuery table id) with
  | .error e => .error e
  | .ok results => .ok results.head?

/-! ## `04_abstraction.py` : `NotificationFacade` -/

/-- The user dict passed to `notify_user`: `name` is read
unconditionally, the three contact fields are read with `.get`. -/
structure User where
  name : String
  email : Option String
  phone : Option String
  device_id : Option String
deriving DecidableEq, Repr

/-- One dispatched send: `EmailService.send`, `SMSService.send` or
`PushNotificationService.send` with the arguments it received. -/
inductive Sent where
  | email (recipient subject body : String) : Sent
  | sms (phone message : String) : Sent
  | push (device_id title body : String) : Sent
deriving DecidableEq, Repr

/-- Python truthiness of `user.get(field)` as used by the walrus tests
`if email := user.get("email")`: a missing key gives `None` (falsy) and
an empty string is falsy too. -/
def truthy : Option String → Bool
  | some s => s ≠ ""
  | none => false

/-- `NotificationFacade.notify_user(user, message, title)`: the list of
sends it dispatches, in source order (email, SMS, push).  In the source
`title` defaults to `お知らせ`; here it is an explicit argument. -/
def notify_user (user : User) (message : String)
    (title : String) : List Sent :=
  (if truthy user.email then
    [Sent.email ((user.email).getD "") title message] else []) ++
  (if truthy user.phone then
    [Sent.sms ((user.phone).getD "") message] else []) ++
  (if truthy user.device_id then
    [Sent.push ((user.device_id).getD "") title message] else [])

/-! ## `04_abstraction.py` : `WeatherReport` -/

/-- `MockWeatherAPI`: returns the fixed temperature for every city. -/
structure MockWeatherAPI where
  temperature : ℚ
deriving DecidableEq, Repr

/-- `MockWeatherAPI.get_temperature(city)`. -/
def MockWeatherAPI.get_temperature (api : MockWeatherAPI)
    (_city : String) : ℚ :=
  api.temperature

/-- The feeling bands of `WeatherReport.generate`: `暑い` = hot,
`快適` = comfortable, `涼しい` = cool, `寒い` = cold. -/
def feelingOf (temp : ℚ) : String :=
  if temp ≥ 30 then "暑い"
  else if temp ≥ 20 then "快適"
  else if temp ≥ 10 then "涼しい"
  else "寒い"

/-- `WeatherReport.generate(city)`, parameterised by the injected
`WeatherAPI.get_temperature` (dependency inversion): the returned report
string. -/
def WeatherReport.generate (get_temperature : String → ℚ)
    (city : String) : String :=
  let temp := get_temperature city
  city ++ "の気温は" ++ toString temp ++ "°C（" ++ feelingOf temp ++ "）です"

/-! ## `03_polymorphism.py` : `ElectronicMoney` -/

/-- Python's `f"{n:,}"` thousands-separated rendering of an integer. -/
def commaSep (n : Int) : String :=
  let ds := (toString n.natAbs).toList.reverse
  let grouped := (ds.enum.foldl
    (fun acc ic =>
      if ic.1 % 3 == 0 && ic.1 ≠ 0 then ic.2 :: ',' :: acc
      else ic.2 :: acc) [])
  (if n < 0 then "-" else "") ++ String.mk grouped

/-- `ElectronicMoney` state: service name and current balance. -/
structure ElectronicMoney where
  service_name : String
  balance : Int
deriving DecidableEq, Repr

/-- The insufficient-funds message `ElectronicMoney.pay` returns. -/
def insufficientMsg (balance : Int) : String :=
  "残高不足です（残高: ¥" ++ commaSep balance ++ "）"

/-- The success message `ElectronicMoney.pay` returns. -/
def paidMsg (service_name : String) (amount newBalance : Int) : String :=
  service_name ++ "で¥" ++ commaSep amount ++
    "を支払いました（残高: ¥" ++ commaSep newBalance ++ "）"

/-- `ElectronicMoney.pay(amount)`: returns the new state and the
message. -/
def ElectronicMoney.pay (em : ElectronicMoney) (amount : Int) :
    ElectronicMoney × String :=
  if amount > em.balance then
    (em, insufficientMsg em.balance)
  else
    let em1 : ElectronicMoney := ⟨em.service_name, em.balance - amount⟩
    (em1, paidMsg em.service_name amount em1.balance)

/-! ### Basic lemmas about single calls -/

lemma deposit_of_nonpos {acct : BankAccount} {a : ℚ} (t : Nat)
    (h : a ≤ 0) : acct.deposit a t = (acct, false) := by
  simp [BankAccount.deposit, h]

lemma deposit_of_pos {acct : BankAccount} {a : ℚ} (t : Nat)
    (h : 0 < a) :
    acct.deposit a t =
      (⟨acct.owner, acct.balance + a,
        acct.transaction_history ++ [⟨"deposit", a, t⟩]⟩, true) := by
  simp [BankAccount.deposit, not_le.mpr h, BankAccount.record_transaction]

lemma withdraw_of_nonpos {acct : BankAccount} {a : ℚ} (t : Nat)
    (h : a ≤ 0) : acct.withdraw a t = (acct, false, some .invalidAmount) := by
  simp [BankAccount.withdraw, h]

lemma withdraw_of_insufficient {acct : BankAccount} {a : ℚ} (t : Nat)
    (h1 : 0 < a) (h2 : acct.balance < a) :
    acct.withdraw a t = (acct, false, some .insufficientFunds) := by
  simp [BankAccount.withdraw, not_le.mpr h1, h2]

lemma withdraw_of_ok {acct : BankAccount} {a : ℚ} (t : Nat)
    (h1 : 0 < a) (h2 : a ≤ acct.balance) :
    acct.withdraw a t =
      (⟨acct.owner, acct.balance - a,
        acct.transaction_history ++ [⟨"withdraw", a, t⟩]⟩, true, none) := by
  simp [BankAccount.withdraw, not_le.mpr h1, not_lt.mpr h2,
    BankAccount.record_transaction]

lemma applyOp_balance_nonneg {acct : BankAccount} (h : 0 ≤ acct.balance)
    (op : Op) : 0 ≤ (applyOp acct op).balance := by
  cases op with
  | deposit a t =>
      by_cases ha : a ≤ 0
      · simp [applyOp, deposit_of_nonpos t ha, h]
      · push_neg at ha
        simp only [applyOp, deposit_of_pos t ha]
        linarith
  | withdraw a t =>
      by_cases ha : a ≤ 0
      · simp [applyOp, withdraw_of_nonpos t ha, h]
      · push_neg at ha
        by_cases hb : a > acct.balance
        · simp [applyOp, withdraw_of_insufficient t ha hb, h]
        · push_neg at hb
          simp only [applyOp, withdraw_of_ok t ha hb]
          linarith

lemma applyOp_history (acct : BankAccount) (op : Op) :
    (applyOp acct op).transaction_history =
      acct.transaction_history ++ opRecords acct op := by
  cases op with
  | deposit a t =>
      by_cases ha : a ≤ 0
      · simp [applyOp, opRecords, deposit_of_nonpos t ha]
      · push_neg at ha
        simp [applyOp, opRecords, deposit_of_pos t ha]
  | withdraw a t =>
      by_cases ha : a ≤ 0
      · simp [applyOp, opRecords, withdraw_of_nonpos t ha]
      · push_neg at ha
        by_cases hb : a > acct.balance
        · simp [applyOp, opRecords, withdraw_of_insufficient t ha hb]
        · push_neg at hb
          simp [applyOp, opRecords, withdraw_of_ok t ha hb]

lemma runOps_history (acct : BankAccount) (ops : List Op) :
    (runOps acct ops).transaction_history =
      acct.transaction_history ++ successRecords acct ops := by
  induction ops generalizing acct with
  | nil => simp [runOps, successRecords]
  | cons op ops ih =>
      simp [runOps, successRecords, ih (applyOp acct op), applyOp_history,
        List.append_assoc]

lemma successRecords_length (acct : BankAccount) (ops : List Op) :
    (successRecords acct ops).length = successCount acct ops := by
  induction ops generalizing acct with
  | nil => simp [successRecords, successCount]
  | cons op ops ih =>
      simp only [successRecords, successCount, List.length_append,
        ih (applyOp acct op)]
      congr 1
      cases op with
      | deposit a t =>
          simp only [opRecords, opSuccess]
          split <;> simp
      | withdraw a t =>
          simp only [opRecords, opSuccess]
          split <;> simp

lemma runOps_balance_nonneg {acct : BankAccount} (h : 0 ≤ acct.balance)
    (ops : List Op) : 0 ≤ (runOps acct ops).balance := by
  induction ops generalizing acct with
  | nil => exact h
  | cons op ops ih => exact ih (applyOp_balance_nonneg h op)

lemma lists_getD_set_append {l : List (List Nat)} {i : Nat}
    (hi : i < l.length) (x v : List Nat) :
    ((l ++ [x]).set l.length v).getD i [] = l.getD i [] := by
  rw [List.getD_eq_getElem?_getD, List.getD_eq_getElem?_getD,
      List.getElem?_set_ne (by omega), List.getElem?_append_left hi]

/-- The heap after `BankAccount("o", 0)` then `deposit(100)` at time `7`
in the heap model: one record dict and the internal history list. -/
def demoHeap : PyHeap :=
  (depositH (initH ⟨[], []⟩ "o" 0).1 (initH ⟨[], []⟩ "o" 0).2 100 7).1

/-- The matching account state. -/
def demoAcct : BankAccountH :=
  (depositH (initH ⟨[], []⟩ "o" 0).1 (initH ⟨[], []⟩ "o" 0).2 100 7).2.1

/-- The result of the first `get_statement()` call on it. -/
def demoStatement : PyHeap × Nat := getStatementH demoHeap demoAcct

/-- The heap after the caller mutates the first record it took out of
the returned statement (`record["type"] = "hacked"`, etc.). -/
def demoMutated : PyHeap :=
  dictAssign demoStatement.1
    ((demoStatement.1.lists.getD demoStatement.2 []).headD 0)
    ⟨"hacked", 999, 7⟩

/-! ## The claims -/

/-- C1: `withdraw(a)` succeeds (returns `True` and decreases the balance
by exactly `a`) iff `a > 0` and `a ≤` the current balance; otherwise it
returns `False`, reports an error distinguishing the invalid amount
(`a ≤ 0`) from insufficient funds (`a >` balance), and leaves the whole
state (balance and transaction history) unchanged. -/
theorem C1_withdraw_spec (acct : BankAccount) (a : ℚ) (now : Nat) :
    ((acct.withdraw a now).2.1 = true ↔ 0 < a ∧ a ≤ acct.balance) ∧
    (0 < a → a ≤ acct.balance →
      (acct.withdraw a now).1.balance = acct.balance - a) ∧
    (a ≤ 0 → acct.withdraw a now = (acct, false, some .invalidAmount)) ∧
    (0 < a → acct.balance < a →
      acct.withdraw a now = (acct, false, some .insufficientFunds)) := by
  refine ⟨⟨?_, ?_⟩, ?_, ?_, ?_⟩
  · intro h
    by_cases ha : a ≤ 0
    · rw [withdraw_of_nonpos now ha] at h
      simp at h
    · push_neg at ha
      by_cases hb : acct.balance < a
      · rw [withdraw_of_insufficient now ha hb] at h
        simp at h
      · push_neg at hb
        exact ⟨ha, hb⟩
  · rintro ⟨h1, h2⟩
    rw [withdraw_of_ok now h1 h2]
  · intro h1 h2
    rw [withdraw_of_ok now h1 h2]
  · intro ha
    exact withdraw_of_nonpos now ha
  · intro h1 h2
    exact withdraw_of_insufficient now h1 h2

/-- Witness for C1 at the account `⟨"o", 10, []⟩` and amount `3`. -/
theorem C1_withdraw_spec_witness :
    (BankAccount.withdraw ⟨"o", 10, []⟩ 3 0).1.balance = 10 - 3 :=
  (C1_withdraw_spec ⟨"o", 10, []⟩ 3 0).2.1 (by norm_num) (by norm_num)

/-- C2: `deposit(a)` succeeds (returns `True` and increases the balance
by exactly `a`) iff `a > 0`; for `a ≤ 0` it returns `False` and leaves
balance and transaction history unchanged. -/
theorem C2_deposit_spec (acct : BankAccount) (a : ℚ) (now : Nat) :
    ((acct.deposit a now).2 = true ↔ 0 < a) ∧
    (0 < a → (acct.deposit a now).1.balance = acct.balance + a) ∧
    (a ≤ 0 → acct.deposit a now = (acct, false)) := by
  refine ⟨⟨?_, ?_⟩, ?_, ?_⟩
  · intro h
    by_cases ha : a ≤ 0
    · rw [deposit_of_nonpos now ha] at h
      simp at h
    · exact lt_of_not_le ha
  · intro h
    rw [deposit_of_pos now h]
  · intro h
    rw [deposit_of_pos now h]
  · intro h
    exact deposit_of_nonpos now h

/-- Witness for C2 at the account `⟨"o", 10, []⟩` and amount `3`. -/
theorem C2_deposit_spec_witness :
    (BankAccount.deposit ⟨"o", 10, []⟩ 3 0).1.balance = 10 + 3 :=
  (C2_deposit_spec ⟨"o", 10, []⟩ 3 0).2.1 (by norm_num)

/-- C3: starting from a non-negative initial balance, no sequence of
`deposit`/`withdraw` calls (with arbitrary amounts) can drive the balance
negative; this holds after every call since every prefix of a sequence is
itself a sequence. -/
theorem C3_balance_never_negative (owner : String) (b0 : ℚ)
    (h : 0 ≤ b0) (ops : List Op) :
    0 ≤ (runOps (BankAccount.init owner b0) ops).balance :=
  runOps_balance_nonneg h ops

/-- Witness for C3: initial balance `5`, a deposit then two withdrawals
(the second failing on insufficient funds). -/
theorem C3_balance_never_negative_witness :
    0 ≤ (runOps (BankAccount.init "o" 5)
      [Op.deposit 1 0, Op.withdraw 4 1, Op.withdraw 100 2]).balance :=
  C3_balance_never_negative "o" 5 (by norm_num) _

/-- C4: after any sequence of calls on a freshly constructed account,
`get_statement` is exactly the list of records of the successful calls,
in call order (each record carrying the call's kind, amount and
timestamp), so its length is the number of successful calls. -/
theorem C4_statement_records (owner : String) (b0 : ℚ) (ops : List Op) :
    (runOps (BankAccount.init owner b0) ops).get_statement
        = successRecords (BankAccount.init owner b0) ops ∧
    (runOps (BankAccount.init owner b0) ops).get_statement.length
        = successCount (BankAccount.init owner b0) ops := by
  have h := runOps_history (BankAccount.init owner b0) ops
  have h0 : (BankAccount.init owner b0).transaction_history = [] := rfl
  constructor
  · rw [BankAccount.get_statement, h, h0, List.nil_append]
  · rw [BankAccount.get_statement, h, h0, List.nil_append,
      successRecords_length]

/-- C6: on both backends, `execute` raises the hard
`データベースに接続されていません` (`not connected`) `RuntimeError` — and hence
returns no result — for every query when called on a freshly constructed
backend (before `connect`) or after `disconnect`. -/
theorem C6_execute_requires_connection :
    (∀ host user password database query,
      (MySQLDatabase.init host user password database).execute query
        = .error notConnectedMsg) ∧
    (∀ (db : MySQLDatabase) (query : String),
      db.disconnect.execute query = .error notConnectedMsg) ∧
    (∀ filepath query,
      (SQLiteDatabase.init filepath).execute query
        = .error notConnectedMsg) ∧
    (∀ (db : SQLiteDatabase) (query : String),
      db.disconnect.execute query = .error notConnectedMsg) :=
  ⟨fun _ _ _ _ _ => rfl, fun _ _ => rfl, fun _ _ => rfl, fun _ _ => rfl⟩

/-- C7: `find_by_id` on any backend whose `execute` returns a normal
result list yields the first record of that list when it is non-empty
and the explicit `None` when it is empty, and never raises for an empty
result. -/
theorem C7_find_by_id_spec
    (execute : String → Except String (List PyDict))
    (table : String) (id : Int) (results : List PyDict)
    (h : execute (findByIdQuery table id) = .ok results) :
    find_by_id execute table id = .ok results.head? ∧
    (results = [] → find_by_id execute table id = .ok none) ∧
    (∀ r rs, results = r :: rs →
      find_by_id execute table id = .ok (some r)) := by
  refine ⟨?_, ?_, ?_⟩
  · rw [find_by_id, h]
  · intro he
    rw [find_by_id, h, he]
    rfl
  · intro r rs he
    rw [find_by_id, h, he]
    rfl

/-- Witness for C7: the connected MySQL backend, whose dummy `execute`
returns `[sampleRow]`. -/
theorem C7_find_by_id_spec_witness :
    find_by_id
      ((MySQLDatabase.init "localhost" "root" "password" "myapp").connect).execute
      "users" 1 = .ok (some sampleRow) :=
  (C7_find_by_id_spec _ "users" 1 [sampleRow] rfl).2.2 sampleRow [] rfl

/-- C8: `generate` maps the fetched temperature to a band with inclusive
lower bounds — `≥ 30 → 暑い` (hot), `[20, 30) → 快適` (comfortable),
`[10, 20) → 涼しい` (cool), `< 10 → 寒い` (cold) — and with a mock source
fixed at `35` / `5` / `20` the report carries the band hot / cold /
comfortable (boundary `20` inclusive). -/
theorem C8_generate_bands (t : ℚ) :
    (30 ≤ t → feelingOf t = "暑い") ∧
    (20 ≤ t → t < 30 → feelingOf t = "快適") ∧
    (10 ≤ t → t < 20 → feelingOf t = "涼しい") ∧
    (t < 10 → feelingOf t = "寒い") ∧
    WeatherReport.generate (MockWeatherAPI.get_temperature ⟨35⟩) "Tokyo"
      = "Tokyoの気温は35°C（暑い）です" ∧
    WeatherReport.generate (MockWeatherAPI.get_temperature ⟨5⟩) "Tokyo"
      = "Tokyoの気温は5°C（寒い）です" ∧
    WeatherReport.generate (MockWeatherAPI.get_temperature ⟨20⟩) "Tokyo"
      = "Tokyoの気温は20°C（快適）です" := by
  refine ⟨?_, ?_, ?_, ?_, ?_, ?_, ?_⟩
  · intro h
    have h30 : t ≥ 30 := h
    simp [feelingOf, h30]
  · intro h1 h2
    have hn30 : ¬ t ≥ 30 := by linarith
    have h20 : t ≥ 20 := h1
    simp [feelingOf, hn30, h20]
  · intro h1 h2
    have hn30 : ¬ t ≥ 30 := by linarith
    have hn20 : ¬ t ≥ 20 := by linarith
    have h10 : t ≥ 10 := h1
    simp [feelingOf, hn30, hn20, h10]
  · intro h
    have hn30 : ¬ t ≥ 30 := by linarith
    have hn20 : ¬ t ≥ 20 := by linarith
    have hn10 : ¬ t ≥ 10 := by linarith
    simp [feelingOf, hn30, hn20, hn10]
  · rfl
  · rfl
  · rfl

/-- Witness for C8 at the three mock temperatures. -/
theorem C8_generate_bands_witness :
    feelingOf 35 = "暑い" ∧ feelingOf 5 = "寒い" ∧ feelingOf 20 = "快適" :=
  ⟨(C8_generate_bands 35).1 (by norm_num),
   (C8_generate_bands 5).2.2.2.1 (by norm_num),
   (C8_generate_bands 20).2.1 (by norm_num) (by norm_num)⟩

/-- C10: `ElectronicMoney.pay(a)` with `a >` the stored balance leaves
the state unchanged and returns the insufficient-funds message;
otherwise it decreases the stored balance by exactly `a` and returns the
success message. -/
theorem C10_pay_spec (em : ElectronicMoney) (amount : Int) :
    (em.balance < amount → em.pay amount = (em, insufficientMsg em.balance)) ∧
    (amount ≤ em.balance →
      (em.pay amount).1
          = ⟨em.service_name, em.balance - amount⟩ ∧
      (em.pay amount).2
          = paidMsg em.service_name amount (em.balance - amount)) := by
  constructor
  · intro h
    simp [ElectronicMoney.pay, h]
  · intro h
    rw [ElectronicMoney.pay, if_neg (not_lt.mpr h)]
    exact ⟨rfl, rfl⟩

/-- Witness for C10: PayPay with balance `5000` paying `1000`, and
paying `99999` with insufficient funds. -/
theorem C10_pay_spec_witness :
    (ElectronicMoney.pay ⟨"PayPay", 5000⟩ 1000).1 = ⟨"PayPay", 4000⟩ ∧
    ElectronicMoney.pay ⟨"PayPay", 5000⟩ 99999
      = (⟨"PayPay", 5000⟩, insufficientMsg 5000) :=
  ⟨((C10_pay_spec ⟨"PayPay", 5000⟩ 1000).2 (by norm_num)).1,
   (C10_pay_spec ⟨"PayPay", 5000⟩ 99999).1 (by norm_num)⟩

/-- C5 fails as stated: `get_statement` copies with `list.copy()`, a
SHALLOW copy, so the record dicts inside the returned list are the very
objects of the internal history.  Concretely: after one deposit, the
first element of the returned statement is dict address `0`, the same
address the internal history holds, and assigning to that dict rewrites
the account's internal history and the result of every later
`get_statement` call. -/
theorem C5_counterexample :
    (demoStatement.1.lists.getD demoStatement.2 []).headD 0 = 0 ∧
    demoStatement.1.lists.getD demoAcct.historyRef [] = [0] ∧
    readList demoStatement.1 demoAcct.historyRef
      = [⟨"deposit", 100, 7⟩] ∧
    readList demoMutated demoAcct.historyRef = [⟨"hacked", 999, 7⟩] ∧
    readList (getStatementH demoMutated demoAcct).1
        (getStatementH demoMutated demoAcct).2
      = [⟨"hacked", 999, 7⟩] :=
  ⟨rfl, rfl, rfl, rfl, rfl⟩

/-- C5 amended: `get_statement` does return a fresh list object distinct
from the internal one, so any caller mutation of the returned LIST
itself (element assignment, `append`, `clear`, …) leaves the internal
history and every later `get_statement` result unchanged; only the
record dicts inside are shared (shallow copy), and mutating one of them
does propagate, as the counterexample shows. -/
theorem C5_amended_defensive_copy (h : PyHeap) (acct : BankAccountH)
    (v : List Nat) (href : acct.historyRef < h.lists.length) :
    (getStatementH h acct).2 ≠ acct.historyRef ∧
    readList
        (listAssign (getStatementH h acct).1 (getStatementH h acct).2 v)
        acct.historyRef
      = readList h acct.historyRef ∧
    readList
        (getStatementH
          (listAssign (getStatementH h acct).1 (getStatementH h acct).2 v)
          acct).1
        (getStatementH
          (listAssign (getStatementH h acct).1 (getStatementH h acct).2 v)
          acct).2
      = readList h acct.historyRef := by
  have key := lists_getD_set_append href (h.lists.getD acct.historyRef []) v
  refine ⟨?_, ?_, ?_⟩
  · show h.lists.length ≠ acct.historyRef
    omega
  · simp only [readList, listAssign, getStatementH]
    rw [key]
  · simp only [readList, listAssign, getStatementH]
    rw [List.getD_eq_getElem?_getD, List.getElem?_concat_length,
      Option.getD_some, key]

/-- Witness for C5 amended: the demo heap with one record, clearing the
returned statement list. -/
theorem C5_amended_defensive_copy_witness :
    readList
        (listAssign
          (getStatementH ⟨[⟨"deposit", 100, 7⟩], [[0]]⟩ ⟨"o", 100, 0⟩).1
          (getStatementH ⟨[⟨"deposit", 100, 7⟩], [[0]]⟩ ⟨"o", 100, 0⟩).2
          [])
        (⟨"o", 100, 0⟩ : BankAccountH).historyRef
      = readList ⟨[⟨"deposit", 100, 7⟩], [[0]]⟩
          (⟨"o", 100, 0⟩ : BankAccountH).historyRef :=
  (C5_amended_defensive_copy ⟨[⟨"deposit", 100, 7⟩], [[0]]⟩ ⟨"o", 100, 0⟩
    [] (by decide)).2.1

/-- C9 fails as stated: `notify_user` tests each contact field with a
truthiness check (`if email := user.get("email")`), so a field that is
present but empty is skipped.  For the record
`{"name": "u", "email": ""}` the claim demands exactly one email send;
the code dispatches to no channel at all. -/
theorem C9_counterexample :
    (⟨"u", some "", none, none⟩ : User).email = some "" ∧
    notify_user ⟨"u", some "", none, none⟩ "m" "t" = [] := by
  refine ⟨rfl, ?_⟩
  simp [notify_user, truthy]

lemma mem_ite_singleton {α : Type} {c : Bool} {a b : α} :
    a ∈ (if c then [b] else []) ↔ c = true ∧ a = b := by
  cases c <;> simp

lemma mem_notify_user {u : User} {msg title : String} {x : Sent} :
    x ∈ notify_user u msg title ↔
      (truthy u.email = true ∧
        x = Sent.email ((u.email).getD "") title msg) ∨
      (truthy u.phone = true ∧ x = Sent.sms ((u.phone).getD "") msg) ∨
      (truthy u.device_id = true ∧
        x = Sent.push ((u.device_id).getD "") title msg) := by
  simp only [notify_user, List.mem_append, mem_ite_singleton]
  tauto

/-- C9 amended: `notify_user` dispatches exactly to the channels whose
contact field is present with a non-empty (truthy) value, in source
order, skipping the others without error; in particular a record whose
only truthy contact field is an email gets exactly the one email send. -/
theorem C9_amended_dispatch (u : User) (msg title : String) :
    (∀ e, Sent.email e title msg ∈ notify_user u msg title ↔
      u.email = some e ∧ e ≠ "") ∧
    (∀ p, Sent.sms p msg ∈ notify_user u msg title ↔
      u.phone = some p ∧ p ≠ "") ∧
    (∀ d, Sent.push d title msg ∈ notify_user u msg title ↔
      u.device_id = some d ∧ d ≠ "") ∧
    (∀ e, u.email = some e → e ≠ "" → u.phone = none → u.device_id = none →
      notify_user u msg title = [Sent.email e title msg]) := by
  obtain ⟨n, eo, po, dvo⟩ := u
  refine ⟨fun e => ?_, fun p => ?_, fun d => ?_, fun e he hne hp hd => ?_⟩
  · cases eo <;> cases po <;> cases dvo <;>
      simp [mem_notify_user, truthy] <;> aesop
  · cases eo <;> cases po <;> cases dvo <;>
      simp [mem_notify_user, truthy] <;> aesop
  · cases eo <;> cases po <;> cases dvo <;>
      simp [mem_notify_user, truthy] <;> aesop
  · cases he
    cases hp
    cases hd
    simp [notify_user, truthy, hne]

/-- Witness for C9 amended: a record with only a non-empty email. -/
theorem C9_amended_dispatch_witness :
    notify_user ⟨"u", some "a", none, none⟩ "m" "t"
      = [Sent.email "a" "t" "m"] :=
  (C9_amended_dispatch ⟨"u", some "a", none, none⟩ "m" "t").2.2.2 "a" rfl
    (by decide) rfl rfl

end OoLearn
